import Mathlib

/-!
Shallow embedding of the startup and event-loop logic of the go-audit
daemon (src/go-audit/audit.go together with src/logger/logger.go), and
proofs of the specification claims about output construction, audit rule
installation, filter parsing, exit behaviour and the main receive loop.

External collaborators (viper configuration lookup, the spf13 cast
coercions, strconv parsing, strings.Fields) are embedded from their
documented behaviour for exactly the value shapes the daemon uses;
external side effects (syslog.Dial, file opening, user lookups, running
auditctl, regexp.Compile) are abstracted as oracles passed in as
parameters, so every definition stays executable.
-/

/-- Dynamic configuration values as produced by the YAML layer and viper:
the shapes go-audit inspects are nil, bools, ints, strings, lists and maps. -/
inductive Value where
  | null : Value
  | bool : Bool → Value
  | int : Int → Value
  | str : String → Value
  | list : List Value → Value
  | map : List (Value × Value) → Value

/-- Decimal digit run folded to a natural number; none when the list is
empty or contains a non-digit character. -/
def decNatList? : List Char → Option Nat
  | [] => none
  | l =>
    l.foldl
      (fun acc c =>
        match acc with
        | none => none
        | some n => if c.isDigit then some (n * 10 + (c.toNat - 48)) else none)
      (some 0)

/-- Go strconv.ParseUint with base 10: no sign prefix, decimal digits only,
and an error when the value does not fit in the given bit size. -/
def goParseUint (s : String) (bits : Nat) : Option Nat :=
  match decNatList? s.data with
  | none => none
  | some n => if n < 2 ^ bits then some n else none

/-- Absolute value part of strconv.ParseInt: digits with the sign already
stripped, rejecting values outside the signed bit range. -/
def goParseIntCore (l : List Char) (neg : Bool) (bits : Nat) : Option Int :=
  match decNatList? l with
  | none => none
  | some n =>
    let v : Int := if neg then -(n : Int) else (n : Int)
    if -((2 : Int) ^ (bits - 1)) ≤ v ∧ v ≤ (2 : Int) ^ (bits - 1) - 1 then some v else none

/-- Go strconv.ParseInt with base 10: optional sign, decimal digits, and an
error when the value does not fit in the signed bit size. -/
def goParseInt (s : String) (bits : Nat) : Option Int :=
  match s.data with
  | '-' :: rest => goParseIntCore rest true bits
  | '+' :: rest => goParseIntCore rest false bits
  | l => goParseIntCore l false bits

/-- spf13 cast ToBool semantics for the shapes go-audit uses; a failed cast
yields false. -/
def castToBool : Value → Bool
  | .bool b => b
  | .int n => n != 0
  | .str s =>
    if s = "1" ∨ s = "t" ∨ s = "T" ∨ s = "true" ∨ s = "TRUE" ∨ s = "True" then true else false
  | _ => false

/-- spf13 cast ToInt semantics for the shapes go-audit uses: integers pass
through, strings are parsed as signed decimal integers with 0 on failure,
booleans map to 0 or 1, everything else casts to 0. -/
def castToInt : Value → Int
  | .int n => n
  | .str s => (goParseInt s 64).getD 0
  | .bool b => if b then 1 else 0
  | _ => 0

/-- spf13 cast ToString for the scalar shapes go-audit uses. -/
def castToString : Value → String
  | .str s => s
  | .int n => toString n
  | .bool b => if b then "true" else "false"
  | _ => ""

/-- Configuration as loaded from the config file: the explicitly set keys. -/
abbrev Settings := String → Option Value

/-- Defaults installed by loadConfig via SetDefault (audit.go lines 35-42);
note that the syslog attempts default is the STRING three. -/
def loadConfigDefaults (k : String) : Option Value :=
  if k = "message_tracking.enabled" then some (.bool true)
  else if k = "message_tracking.log_out_of_order" then some (.bool false)
  else if k = "message_tracking.max_out_of_order" then some (.int 500)
  else if k = "output.syslog.enabled" then some (.bool false)
  else if k = "output.syslog.priority" then some (.int 132)
  else if k = "output.syslog.tag" then some (.str "go-audit")
  else if k = "output.syslog.attempts" then some (.str "3")
  else if k = "log.flags" then some (.int 0)
  else none

/-- viper Get: an explicitly set key wins, then a registered default, then nil. -/
def viperGet (s : Settings) (k : String) : Value :=
  match s k with
  | some v => v
  | none => (loadConfigDefaults k).getD .null

def viperGetBool (s : Settings) (k : String) : Bool :=
  castToBool (viperGet s k)

def viperGetInt (s : Settings) (k : String) : Int :=
  castToInt (viperGet s k)

/-- Splitting of a character list around runs of whitespace, the running
field accumulated in reverse. -/
def fieldsAux : List Char → List Char → List String
  | [], acc => if acc.isEmpty then [] else [String.mk acc.reverse]
  | c :: rest, acc =>
    if c.isWhitespace then
      if acc.isEmpty then fieldsAux rest []
      else String.mk acc.reverse :: fieldsAux rest []
    else fieldsAux rest (c :: acc)

/-- Go strings.Fields: split around runs of whitespace, dropping empties. -/
def goFields (s : String) : List String :=
  fieldsAux s.data []

/-- viper GetStringSlice for the shapes go-audit uses: a list casts each
element to string, a bare string splits on whitespace, anything else is
the empty slice. -/
def viperGetStringSlice (s : Settings) (k : String) : List String :=
  match viperGet s k with
  | .list vs => vs.map castToString
  | .str st => goFields st
  | _ => []

/-- Destination of a process wide logger handle. -/
inductive Dest where
  | stdoutDest : Dest
  | stderrDest : Dest
deriving DecidableEq

/-- State of the two package level loggers l (info, audit.go line 22) and
el (error, audit.go line 23). -/
structure LoggerState where
  lOut : Dest
  elOut : Dest
deriving DecidableEq

/-- Initial logger state: l writes to stdout, el to stderr. -/
def initLoggerState : LoggerState :=
  ⟨Dest.stdoutDest, Dest.stderrDest⟩

/-- Which sink an AuditWriter wraps. -/
inductive Sink where
  | syslogSink : Sink
  | fileSink : Sink
  | stdoutSink : Sink
deriving DecidableEq

/-- NewAuditWriter result: the sink plus the configured retry attempts. -/
structure AuditWriter where
  sink : Sink
  attempts : Int
deriving DecidableEq

/-- Outcomes of the external calls made by the output constructors:
syslog.Dial, os.OpenFile, Chmod, the user and group lookups (returning the
uid and gid strings), and Chown. -/
structure Env where
  syslogDialOk : Bool
  openFileOk : Bool
  chmodOk : Bool
  userUid : Option String
  groupGid : Option String
  chownOk : Bool

/-- createSyslogOutput (audit.go lines 123-143): reject attempts below 1,
then dial syslog; the logger state is never touched. -/
def createSyslogOutput (settings : Settings) (env : Env) (ls : LoggerState) :
    LoggerState × Except String AuditWriter :=
  (ls,
    if viperGetInt settings "output.syslog.attempts" < 1 then
      .error ("Output attempts for syslog must be at least 1, "
        ++ toString (viperGetInt settings "output.syslog.attempts") ++ " provided")
    else if env.syslogDialOk then
      .ok ⟨Sink.syslogSink, viperGetInt settings "output.syslog.attempts"⟩
    else .error "Failed to open syslog writer.")

/-- createFileOutput (audit.go lines 145-198): the file mode passes
through the unsigned 32 bit os.FileMode conversion before the positivity
check, and the uid and gid strings are parsed as 32 bit ints; the logger
state is never touched. -/
def createFileOutput (settings : Settings) (env : Env) (ls : LoggerState) :
    LoggerState × Except String AuditWriter :=
  (ls,
    if viperGetInt settings "output.file.attempts" < 1 then
      .error ("Output attempts for file must be at least 1, "
        ++ toString (viperGetInt settings "output.file.attempts") ++ " provided")
    else if (viperGetInt settings "output.file.mode" % 4294967296).toNat < 1 then
      .error "Output file mode should be greater than 0000"
    else if env.openFileOk = false then .error "Failed to open output file."
    else if env.chmodOk = false then .error "Failed to set file permissions."
    else
      match env.userUid with
      | none => .error "Could not find uid for user"
      | some uid =>
        match env.groupGid with
        | none => .error "Could not find gid for group"
        | some gid =>
          match goParseInt uid 32 with
          | none => .error "Found uid could not be parsed."
          | some _ =>
            match goParseInt gid 32 with
            | none => .error "Found gid could not be parsed."
            | some _ =>
              if env.chownOk then .ok ⟨Sink.fileSink, viperGetInt settings "output.file.attempts"⟩
              else .error "Could not chown output file.")

/-- createStdOutOutput (audit.go lines 200-212): on success the package
level info logger l is redirected to stderr just before the writer is
returned; on the attempts error path the logger state is left untouched. -/
def createStdOutOutput (settings : Settings) (_env : Env) (ls : LoggerState) :
    LoggerState × Except String AuditWriter :=
  if viperGetInt settings "output.stdout.attempts" < 1 then
    (ls, .error ("Output attempts for stdout must be at least 1, "
      ++ toString (viperGetInt settings "output.stdout.attempts") ++ " provided"))
  else
    ({ ls with lOut := Dest.stderrDest }, .ok ⟨Sink.stdoutSink, viperGetInt settings "output.stdout.attempts"⟩)

/-- One enabled-output block of createOutput: on an already failed state
the error is returned unchanged (early return in the source); otherwise,
when this output is enabled, the constructor runs and the enabled counter
i is bumped, the new writer overwriting any previous one. -/
def outputStep (enabled : Bool)
    (create : LoggerState → LoggerState × Except String AuditWriter)
    (st : LoggerState × Except String (Option AuditWriter × Nat)) :
    LoggerState × Except String (Option AuditWriter × Nat) :=
  match st with
  | (ls, .error m) => (ls, .error m)
  | (ls, .ok (w, i)) =>
    if enabled then
      match create ls with
      | (ls2, .error m) => (ls2, .error m)
      | (ls2, .ok w2) => (ls2, .ok (some w2, i + 1))
    else (ls, .ok (w, i))

/-- createOutput (audit.go lines 83-121): try syslog, file, stdout in that
order, then fail when more than one output was enabled, then fail when no
writer was produced. -/
def createOutput (settings : Settings) (env : Env) (ls : LoggerState) :
    LoggerState × Except String AuditWriter :=
  match
    outputStep (viperGetBool settings "output.stdout.enabled") (createStdOutOutput settings env)
      (outputStep (viperGetBool settings "output.file.enabled") (createFileOutput settings env)
        (outputStep (viperGetBool settings "output.syslog.enabled") (createSyslogOutput settings env)
          (ls, .ok (none, 0)))) with
  | (lsf, .error m) => (lsf, .error m)
  | (lsf, .ok (w, i)) =>
    if i > 1 then (lsf, .error "Only one output can be enabled at a time")
    else
      match w with
      | none => (lsf, .error "No outputs were configured")
      | some w2 => (lsf, .ok w2)

/-- Number of enabled outputs, the final value of the counter i in
createOutput when no constructor fails early. -/
def outputsEnabledCount (s : Settings) : Nat :=
  (if viperGetBool s "output.syslog.enabled" then 1 else 0) +
    (if viperGetBool s "output.file.enabled" then 1 else 0) +
    (if viperGetBool s "output.stdout.enabled" then 1 else 0)

/-- Executor abstraction for exec.Command(name, args...).Run(): true means
the command exited with status 0. -/
abbrev Executor := String → List String → Bool

/-- Rule installation loop of setRules (audit.go lines 63-75): empty rule
strings are skipped, each remaining rule is passed whitespace split to
auditctl, and the loop stops at the first failing invocation. The trace
of invocations actually performed is returned beside the result. -/
def setRulesList (e : Executor) : List String → Nat → List (String × List String) × Except String Unit
  | [], _ => ([], .ok ())
  | v :: rest, i =>
    if v = "" then setRulesList e rest (i + 1)
    else if e "auditctl" (goFields v) then
      let r := setRulesList e rest (i + 1)
      (("auditctl", goFields v) :: r.1, r.2)
    else ([("auditctl", goFields v)], .error ("Failed to add rule #" ++ toString (i + 1)))

/-- setRules (audit.go lines 54-81): flush existing rules with auditctl -D
first, then install the configured rules; an empty rules list is an error
reported only after the flush has already happened. -/
def setRules (settings : Settings) (e : Executor) :
    List (String × List String) × Except String Unit :=
  if e "auditctl" ["-D"] then
    if (viperGetStringSlice settings "rules").length ≠ 0 then
      let r := setRulesList e (viperGetStringSlice settings "rules") 0
      (("auditctl", ["-D"]) :: r.1, r.2)
    else ([("auditctl", ["-D"])], .error "No audit rules found.")
  else ([("auditctl", ["-D"])], .error "Failed to flush existing audit rules.")

/-- Parsed filter with the Go zero values: message type 0, empty syscall,
nil regex. The regex field stores the source expression of the compiled
pattern, none standing for the nil pointer. -/
structure AuditFilter where
  messageType : Nat := 0
  syscall : String := ""
  regex : Option String := none
deriving DecidableEq

/-- One key/value pair of a filter map, the switch body of createFilters
(audit.go lines 238-283); an error models a Go panic. Unknown keys are
ignored; message type values are truncated to unsigned 16 bits exactly as
the uint16 conversions in the source do; rc models regexp.Compile. -/
def filterFieldAction (rc : String → Option String) (af : AuditFilter) (k : String) (v : Value) :
    Except String AuditFilter :=
  if k = "message_type" then
    match v with
    | .str s =>
      match goParseUint s 64 with
      | some u => .ok { af with messageType := u % 65536 }
      | none => .error "message_type in filter could not be parsed"
    | .int n => .ok { af with messageType := (n % 65536).toNat }
    | _ => .error "message_type in filter could not be parsed"
  else if k = "regex" then
    match v with
    | .str s =>
      match rc s with
      | some cre => .ok { af with regex := some cre }
      | none => .error "regex in filter could not be parsed"
    | _ => .error "regex in filter could not be parsed"
  else if k = "syscall" then
    match v with
    | .str s => .ok { af with syscall := s }
    | .int n => .ok { af with syscall := toString n }
    | _ => .error "syscall in filter could not be parsed"
  else .ok af

def setFilterField (rc : String → Option String) (af : AuditFilter) (kv : Value × Value) :
    Except String AuditFilter :=
  match kv.1 with
  | Value.str k => filterFieldAction rc af k kv.2
  | _ => .ok af

/-- Fold of setFilterField over the key/value pairs of one filter map. -/
def setFilterFields (rc : String → Option String) (af : AuditFilter) :
    List (Value × Value) → Except String AuditFilter
  | [] => .ok af
  | kv :: rest =>
    match setFilterField rc af kv with
    | .error m => .error m
    | .ok af2 => setFilterFields rc af2 rest

/-- One entry of the filters list (audit.go lines 230-288). An entry that
is not a map panics. After the fields are set, the logging call on line
286 evaluates af.Regex.String(); when no regex was supplied af.Regex is
the nil pointer and that method call dereferences nil and panics. -/
def processFilterEntry (rc : String → Option String) (f : Value) : Except String AuditFilter :=
  match f with
  | .map kvs =>
    match setFilterFields rc {} kvs with
    | .error m => .error m
    | .ok af =>
      match af.regex with
      | some _ => .ok af
      | none => .error "runtime error: invalid memory address or nil pointer dereference"
  | _ => .error "Could not parse filter"

/-- Sequential processing of the filters list entries, stopping at the
first panic. -/
def createFiltersList (rc : String → Option String) : List Value → Except String (List AuditFilter)
  | [] => .ok []
  | f :: rest =>
    match processFilterEntry rc f with
    | .error m => .error m
    | .ok af =>
      match createFiltersList rc rest with
      | .error m => .error m
      | .ok fl => .ok (af :: fl)

/-- createFilters (audit.go lines 214-291). A nil filters key and a
filters value that is not a list both yield the empty filter set silently;
rc models regexp.Compile, returning the compiled expression or failing. -/
def createFilters (fs : Value) (rc : String → Option String) : Except String (List AuditFilter) :=
  match fs with
  | .null => .ok []
  | .list ft => createFiltersList rc ft
  | _ => .ok []

/-- How the process left (or did not leave) the startup sequence of main. -/
inductive StartupOutcome where
  | usageExit1 : StartupOutcome
  | panicked : String → StartupOutcome
  | started : AuditWriter → List AuditFilter → LoggerState → StartupOutcome
deriving DecidableEq

/-- Startup sequence of main (audit.go lines 293-331): a missing config
flag exits through os.Exit(1) after printing usage; a failure of
loadConfig, createOutput, setRules or createFilters raises a Go panic.
The load parameter stands for the result of reading the config file. -/
def mainStartup (configFile : String) (load : Option Settings) (env : Env) (e : Executor)
    (rc : String → Option String) : StartupOutcome :=
  if configFile = "" then .usageExit1
  else
    match load with
    | none => .panicked "config load error"
    | some settings =>
      match createOutput settings env initLoggerState with
      | (_, .error m) => .panicked m
      | (ls1, .ok w) =>
        match (setRules settings e).2 with
        | .error m => .panicked m
        | .ok _ =>
          match createFilters (viperGet settings "filters") rc with
          | .error m => .panicked m
          | .ok fl => .started w fl ls1

/-- Process exit status for a startup outcome: os.Exit(1) on the usage
path; an unrecovered Go panic terminates the process with status 2 (Go
runtime convention); a started daemon has not exited. -/
def exitCodeOf : StartupOutcome → Option Nat
  | .usageExit1 => some 1
  | .panicked _ => some 2
  | .started _ _ _ => none

/-- Message handed to marshaller.Consume by the main loop. -/
structure NetlinkPacket where
  msgType : Nat
  data : String
deriving DecidableEq

/-- Result of one nlClient.Receive() call as seen by the main loop. -/
inductive RecvOutcome where
  | recvError : String → RecvOutcome
  | nilMsg : RecvOutcome
  | message : NetlinkPacket → RecvOutcome

/-- Main receive loop body (audit.go lines 336-348) run over a finite
trace of receive outcomes: a receive error is logged and the loop
continues, a nil message is skipped, and every real message is handed to
marshaller.Consume. Returns the consumed packets and the error log lines. -/
def mainLoopRun : List RecvOutcome → List NetlinkPacket × List String
  | [] => ([], [])
  | .recvError s :: rest =>
    let r := mainLoopRun rest
    (r.1, ("Error during message receive: " ++ s) :: r.2)
  | .nilMsg :: rest => mainLoopRun rest
  | .message m :: rest =>
    let r := mainLoopRun rest
    (m :: r.1, r.2)

/-- Invalid shapes for one filter field, following the claim wording: a
message type value that is neither an int nor a decimal string parseable
as an unsigned 64 bit integer, a regex value that is not a string or does
not compile, a syscall value that is neither a string nor an int. -/
def claimBadFieldAction (rc : String → Option String) (k : String) (v : Value) : Bool :=
  if k = "message_type" then
    match v with
    | .str s => (goParseUint s 64).isNone
    | .int _ => false
    | _ => true
  else if k = "regex" then
    match v with
    | .str s => (rc s).isNone
    | _ => true
  else if k = "syscall" then
    match v with
    | .str _ => false
    | .int _ => false
    | _ => true
  else false

def claimBadField (rc : String → Option String) (kv : Value × Value) : Bool :=
  match kv.1 with
  | Value.str k => claimBadFieldAction rc k kv.2
  | _ => false

/-- A filters entry invalid per the claim wording: not a map, or holding
some field value of an unsupported shape or one that fails to parse or
compile. -/
def claimInvalidFilterEntry (rc : String → Option String) (f : Value) : Bool :=
  match f with
  | .map kvs => kvs.any (claimBadField rc)
  | _ => true

/-- Canonical single filter entry carrying all three keys, used to state
the normalization claims. -/
def filterEntry (mt sc : Value) (re : String) : Value :=
  Value.map
    [(Value.str "message_type", mt), (Value.str "syscall", sc), (Value.str "regex", Value.str re)]

/-- Environment in which every external call succeeds, for witnesses. -/
def demoEnv : Env :=
  ⟨true, true, true, some "0", some "0", true⟩

/-- Configuration with no keys set at all, for witnesses. -/
def emptySettings : Settings := fun _ => none

/-- Configuration enabling only the stdout output, for witnesses. -/
def stdoutOnlySettings : Settings := fun k =>
  if k = "output.stdout.enabled" then some (.bool true)
  else if k = "output.stdout.attempts" then some (.int 3)
  else none

/-- Configuration with a syslog attempts value of zero, for witnesses. -/
def zeroAttemptsSettings : Settings := fun k =>
  if k = "output.syslog.attempts" then some (.int 0) else none

/-- Configuration with two rules, the first one blank, for witnesses. -/
def demoRuleSettings : Settings := fun k =>
  if k = "rules" then some (.list [.str "", .str "-w /etc -p wa"]) else none

/-- Executor that reports success for every invocation, for witnesses. -/
def execAllOk : Executor := fun _ _ => true

/-- Regex compilation oracle that accepts every pattern, for witnesses. -/
def rcAccept : String → Option String := fun s => some s

/-- Regex compilation oracle that rejects every pattern, for witnesses. -/
def rcReject : String → Option String := fun _ => none

/-- Modelled from the spec: the audit writer of the writer package is not
under src/. Per spec section 4.E the writer retries the sink write without
backoff up to its configured attempts budget; success on any attempt
delivers the event, and an exhausted budget surfaces a DeliveryError.
sinkOk gives the outcome of the attempt with the given index. -/
def auditWriterWrite (sinkOk : Nat → Bool) : Nat → Nat → Except String Unit
  | 0, _ => .error "DeliveryError: write exhausted retry attempts"
  | n + 1, i => if sinkOk i then .ok () else auditWriterWrite sinkOk n (i + 1)

/-- Modelled from the spec: the runtime fatal propagation is not under
src/ either. Per spec sections 4.E and 7 a DeliveryError surfaced by the
writer is fatal to the daemon, and per section 6 a runtime fatal
terminates the process with exit code 2; a delivered write does not
terminate the daemon. -/
def runtimeFatalExitCode (r : Except String Unit) : Option Nat :=
  match r with
  | .ok _ => none
  | .error _ => some 2

/-! Theorems. -/

/-- C8: in the main receive loop, every receive error is logged and the
loop proceeds with the remaining iterations; receive errors and nil
messages never reach the marshaller and never terminate the loop, so the
packets consumed are exactly the real messages of the input trace. -/
theorem receive_loop_isolation (inputs : List RecvOutcome) :
    (mainLoopRun inputs).1
        = inputs.filterMap (fun r =>
            match r with
            | .message m => some m
            | _ => none)
      ∧ (mainLoopRun inputs).2
        = inputs.filterMap (fun r =>
            match r with
            | .recvError s => some ("Error during message receive: " ++ s)
            | _ => none) := by
  induction inputs with
  | nil => exact ⟨rfl, rfl⟩
  | cons r rest ih =>
    cases r <;> simp [mainLoopRun, List.filterMap_cons, ih.1, ih.2]

/-- C9: with a missing or empty rules list, setRules fails with the error
No audit rules found, but only after the single auditctl -D invocation has
already flushed the kernel rules; the trace shows no rollback call. -/
theorem setRules_empty_rules_after_flush (settings : Settings) (e : Executor)
    (hr : settings "rules" = none ∨ settings "rules" = some (Value.list []))
    (hflush : e "auditctl" ["-D"] = true) :
    setRules settings e = ([("auditctl", ["-D"])], .error "No audit rules found.") := by
  have hs : viperGetStringSlice settings "rules" = [] := by
    rcases hr with h | h <;>
      simp [viperGetStringSlice, viperGet, h, loadConfigDefaults]
  simp [setRules, hflush, hs]

/-- Witness for C9 at a concrete configuration without a rules key. -/
theorem setRules_empty_rules_after_flush_witness :
    setRules emptySettings execAllOk = ([("auditctl", ["-D"])], .error "No audit rules found.") :=
  setRules_empty_rules_after_flush emptySettings execAllOk (Or.inl rfl) rfl

/-- C10: createSyslogOutput and createFileOutput never change the logger
state; createStdOutOutput redirects the info logger l to stderr exactly on
its success path, leaving the error logger el untouched, and performs no
other logger change. -/
theorem output_constructors_logger_frame (settings : Settings) (env : Env) (ls : LoggerState) :
    (createSyslogOutput settings env ls).1 = ls
      ∧ (createFileOutput settings env ls).1 = ls
      ∧ (∀ w, (createStdOutOutput settings env ls).2 = .ok w →
          (createStdOutOutput settings env ls).1 = { ls with lOut := Dest.stderrDest })
      ∧ ((createStdOutOutput settings env ls).1 = ls
          ∨ (createStdOutOutput settings env ls).1 = { ls with lOut := Dest.stderrDest }) := by
  refine ⟨rfl, rfl, ?_, ?_⟩ <;>
    by_cases h : viperGetInt settings "output.stdout.attempts" < 1 <;>
      simp [createStdOutOutput, h]

/-- Witness for C10: with stdout enabled and three attempts the info
logger has moved to stderr. -/
theorem output_constructors_logger_frame_witness :
    (createStdOutOutput stdoutOnlySettings demoEnv initLoggerState).1
      = { initLoggerState with lOut := Dest.stderrDest } :=
  (output_constructors_logger_frame stdoutOnlySettings demoEnv initLoggerState).2.2.1
    ⟨Sink.stdoutSink, 3⟩ rfl

/-- C6: each output constructor rejects a configured attempts value below
1 with an error, and an unset syslog attempts key falls back to the
default string three, which is read as the integer 3 and accepted. -/
theorem output_attempts_validation (settings : Settings) (env : Env) (ls : LoggerState) :
    (viperGetInt settings "output.syslog.attempts" < 1 →
        ∃ m, (createSyslogOutput settings env ls).2 = .error m)
      ∧ (viperGetInt settings "output.file.attempts" < 1 →
        ∃ m, (createFileOutput settings env ls).2 = .error m)
      ∧ (viperGetInt settings "output.stdout.attempts" < 1 →
        ∃ m, (createStdOutOutput settings env ls).2 = .error m)
      ∧ (settings "output.syslog.attempts" = none →
          viperGetInt settings "output.syslog.attempts" = 3
            ∧ (env.syslogDialOk = true →
              (createSyslogOutput settings env ls).2 = .ok ⟨Sink.syslogSink, 3⟩)) := by
  refine ⟨?_, ?_, ?_, ?_⟩
  · intro h
    simp [createSyslogOutput, h]
  · intro h
    simp [createFileOutput, h]
  · intro h
    simp [createStdOutOutput, h]
  · intro h
    have h3 : viperGetInt settings "output.syslog.attempts" = 3 := by
      unfold viperGetInt viperGet
      rw [h]
      decide
    refine ⟨h3, fun hd => ?_⟩
    simp [createSyslogOutput, h3, hd]

/-- Witness for C6: a configured syslog attempts value of zero is
rejected, and the unset default is read as 3 and accepted. -/
theorem output_attempts_validation_witness :
    (∃ m, (createSyslogOutput zeroAttemptsSettings demoEnv initLoggerState).2 = .error m)
      ∧ (createSyslogOutput emptySettings demoEnv initLoggerState).2 = .ok ⟨Sink.syslogSink, 3⟩ :=
  ⟨(output_attempts_validation zeroAttemptsSettings demoEnv initLoggerState).1 (by decide),
    ((output_attempts_validation emptySettings demoEnv initLoggerState).2.2.2 rfl).2 rfl⟩

/-- C4: a filters entry that is a well formed map but omits the regex key
does NOT make createFilters return a filter with an absent regex; instead
the logging call after the append dereferences the nil Regex pointer and
the daemon panics. Evaluated at the concrete failing input of the claim. -/
theorem createFilters_missing_regex_panics :
    createFilters
        (Value.list
          [Value.map [(Value.str "message_type", Value.int 1300), (Value.str "syscall", Value.str "2")]])
        rcAccept
      = .error "runtime error: invalid memory address or nil pointer dereference" := rfl


/-- Dichotomy for one filter field: the switch body panics exactly on the
field shapes the claim calls invalid. -/
lemma filterFieldAction_cases (rc : String → Option String) (af : AuditFilter)
    (k : String) (v : Value) :
    (claimBadFieldAction rc k v = true ∧ ∃ m, filterFieldAction rc af k v = .error m)
      ∨ (claimBadFieldAction rc k v = false ∧ ∃ af2, filterFieldAction rc af k v = .ok af2) := by
  unfold claimBadFieldAction filterFieldAction
  by_cases h1 : k = "message_type"
  · simp only [if_pos h1]
    cases v with
    | str s =>
      rcases hu : goParseUint s 64 with _ | u
      · exact Or.inl ⟨by simp [hu], by simp [hu]⟩
      · exact Or.inr ⟨by simp [hu], by simp [hu]⟩
    | int n => exact Or.inr ⟨by simp, ⟨_, rfl⟩⟩
    | null => exact Or.inl ⟨by simp, ⟨_, rfl⟩⟩
    | bool b => exact Or.inl ⟨by simp, ⟨_, rfl⟩⟩
    | list l => exact Or.inl ⟨by simp, ⟨_, rfl⟩⟩
    | map l => exact Or.inl ⟨by simp, ⟨_, rfl⟩⟩
  · by_cases h2 : k = "regex"
    · simp only [if_neg h1, if_pos h2]
      cases v with
      | str s =>
        rcases hc : rc s with _ | cre
        · exact Or.inl ⟨by simp [hc], by simp [hc]⟩
        · exact Or.inr ⟨by simp [hc], by simp [hc]⟩
      | int n => exact Or.inl ⟨by simp, ⟨_, rfl⟩⟩
      | null => exact Or.inl ⟨by simp, ⟨_, rfl⟩⟩
      | bool b => exact Or.inl ⟨by simp, ⟨_, rfl⟩⟩
      | list l => exact Or.inl ⟨by simp, ⟨_, rfl⟩⟩
      | map l => exact Or.inl ⟨by simp, ⟨_, rfl⟩⟩
    · by_cases h3 : k = "syscall"
      · simp only [if_neg h1, if_neg h2, if_pos h3]
        cases v with
        | str s => exact Or.inr ⟨by simp, ⟨_, rfl⟩⟩
        | int n => exact Or.inr ⟨by simp, ⟨_, rfl⟩⟩
        | null => exact Or.inl ⟨by simp, ⟨_, rfl⟩⟩
        | bool b => exact Or.inl ⟨by simp, ⟨_, rfl⟩⟩
        | list l => exact Or.inl ⟨by simp, ⟨_, rfl⟩⟩
        | map l => exact Or.inl ⟨by simp, ⟨_, rfl⟩⟩
      · simp only [if_neg h1, if_neg h2, if_neg h3]
        exact Or.inr ⟨by simp, ⟨_, rfl⟩⟩

/-- Dichotomy lifted to raw key/value pairs. -/
lemma setFilterField_cases (rc : String → Option String) (af : AuditFilter)
    (kv : Value × Value) :
    (claimBadField rc kv = true ∧ ∃ m, setFilterField rc af kv = .error m)
      ∨ (claimBadField rc kv = false ∧ ∃ af2, setFilterField rc af kv = .ok af2) := by
  rcases kv with ⟨k, v⟩
  cases k with
  | str ks => exact filterFieldAction_cases rc af ks v
  | null => exact Or.inr ⟨rfl, ⟨_, rfl⟩⟩
  | bool b => exact Or.inr ⟨rfl, ⟨_, rfl⟩⟩
  | int n => exact Or.inr ⟨rfl, ⟨_, rfl⟩⟩
  | list l => exact Or.inr ⟨rfl, ⟨_, rfl⟩⟩
  | map l => exact Or.inr ⟨rfl, ⟨_, rfl⟩⟩

/-- A bad field somewhere in the map makes the field fold panic. -/
lemma setFilterFields_error_of_bad (rc : String → Option String) :
    ∀ (kvs : List (Value × Value)) (af : AuditFilter),
      (∃ kv ∈ kvs, claimBadField rc kv = true) →
      ∃ m, setFilterFields rc af kvs = .error m := by
  intro kvs
  induction kvs with
  | nil =>
    intro af h
    rcases h with ⟨kv, hmem, _⟩
    cases hmem
  | cons kv rest ih =>
    intro af h
    rcases setFilterField_cases rc af kv with ⟨hbad, m, hm⟩ | ⟨hgood, af2, hok⟩
    · exact ⟨m, by simp [setFilterFields, hm]⟩
    · rcases h with ⟨kv0, hmem, hkv0⟩
      rcases List.mem_cons.mp hmem with heq | hmem2
      · subst heq
        rw [hgood] at hkv0
        cases hkv0
      · rcases ih af2 ⟨kv0, hmem2, hkv0⟩ with ⟨m, hm⟩
        exact ⟨m, by simp [setFilterFields, hok, hm]⟩

/-- An entry invalid per the claim makes the per entry processing panic. -/
lemma processFilterEntry_error_of_invalid (rc : String → Option String) (f : Value)
    (h : claimInvalidFilterEntry rc f = true) :
    ∃ m, processFilterEntry rc f = .error m := by
  cases f with
  | map kvs =>
    have hex : ∃ kv ∈ kvs, claimBadField rc kv = true := by
      simpa [claimInvalidFilterEntry, List.any_eq_true] using h
    rcases setFilterFields_error_of_bad rc kvs {} hex with ⟨m, hm⟩
    exact ⟨m, by simp [processFilterEntry, hm]⟩
  | null => exact ⟨_, rfl⟩
  | bool b => exact ⟨_, rfl⟩
  | int n => exact ⟨_, rfl⟩
  | str s => exact ⟨_, rfl⟩
  | list l => exact ⟨_, rfl⟩

/-- An invalid entry anywhere in the filters list makes the whole list
processing panic. -/
lemma createFiltersList_error_of_invalid (rc : String → Option String) :
    ∀ entries : List Value,
      (∃ f ∈ entries, claimInvalidFilterEntry rc f = true) →
      ∃ m, createFiltersList rc entries = .error m := by
  intro entries
  induction entries with
  | nil =>
    intro h
    rcases h with ⟨f, hmem, _⟩
    cases hmem
  | cons f rest ih =>
    intro h
    cases hp : processFilterEntry rc f with
    | error m => exact ⟨m, by simp [createFiltersList, hp]⟩
    | ok af =>
      rcases h with ⟨f0, hmem, hf0⟩
      rcases List.mem_cons.mp hmem with heq | hmem2
      · subst heq
        rcases processFilterEntry_error_of_invalid rc f0 hf0 with ⟨m, hm⟩
        rw [hm] at hp
        cases hp
      · rcases ih ⟨f0, hmem2, hf0⟩ with ⟨m, hm⟩
        exact ⟨m, by simp [createFiltersList, hp, hm]⟩

/-- C2: a filters list containing any invalid entry (not a map, or with a
message type, regex or syscall value of unsupported shape or one that
fails to parse or compile) never yields a filter set: createFilters
panics, and the daemon startup never reaches the running state. -/
theorem createFilters_invalid_is_fatal (entries : List Value) (rc : String → Option String)
    (hinv : ∃ f ∈ entries, claimInvalidFilterEntry rc f = true) :
    (∀ fl, createFilters (Value.list entries) rc ≠ Except.ok fl)
      ∧ ∀ (configFile : String) (settings : Settings) (env : Env) (e : Executor)
          (w : AuditWriter) (fl : List AuditFilter) (ls : LoggerState),
          settings "filters" = some (Value.list entries) →
          mainStartup configFile (some settings) env e rc ≠ .started w fl ls := by
  rcases createFiltersList_error_of_invalid rc entries hinv with ⟨m, hm⟩
  have hcf : createFilters (Value.list entries) rc = .error m := by
    simp [createFilters, hm]
  constructor
  · intro fl hcontra
    rw [hcf] at hcontra
    cases hcontra
  · intro configFile settings env e w fl ls hfil hcontra
    have hv : viperGet settings "filters" = Value.list entries := by
      unfold viperGet
      rw [hfil]
    unfold mainStartup at hcontra
    by_cases hc : configFile = ""
    · rw [if_pos hc] at hcontra
      cases hcontra
    · rw [if_neg hc] at hcontra
      dsimp only at hcontra
      rw [hv, hcf] at hcontra
      rcases hco : createOutput settings env initLoggerState with ⟨ls1, r⟩
      rw [hco] at hcontra
      cases r with
      | error m2 => cases hcontra
      | ok w2 =>
        cases hsr : (setRules settings e).2 with
        | error m3 =>
          rw [hsr] at hcontra
          cases hcontra
        | ok u =>
          rw [hsr] at hcontra
          cases hcontra

/-- Witness for C2: an entry that is a bare string instead of a map. -/
theorem createFilters_invalid_is_fatal_witness :
    createFilters (Value.list [Value.str "oops"]) rcReject ≠ Except.ok [] :=
  (createFilters_invalid_is_fatal [Value.str "oops"] rcReject
    ⟨Value.str "oops", by simp, rfl⟩).1 []

/-- Appending a head keeps the last element of a nonempty list. -/
lemma getLast?_cons_of_mem {α : Type} (a : α) {c : α} {l : List α}
    (hmem : c ∈ l) (hl : l.getLast? = some c) : (a :: l).getLast? = some c := by
  cases l with
  | nil => cases hmem
  | cons x xs =>
    rw [List.getLast?_cons_cons]
    exact hl

/-- The trace of the rule loop is always a prefix of the whitespace split
nonempty rules, in configuration order. -/
lemma setRulesList_trace_prefix (e : Executor) :
    ∀ (rules : List String) (i : Nat), ∃ k,
      (setRulesList e rules i).1
        = ((rules.filter (fun v => !(v == ""))).take k).map (fun v => ("auditctl", goFields v)) := by
  intro rules
  induction rules with
  | nil => exact fun i => ⟨0, rfl⟩
  | cons v rest ih =>
    intro i
    by_cases hv : v = ""
    · rcases ih (i + 1) with ⟨k, hk⟩
      exact ⟨k, by simp [setRulesList, hv, hk]⟩
    · cases he : e "auditctl" (goFields v) with
      | false => exact ⟨1, by simp [setRulesList, hv, he]⟩
      | true =>
        rcases ih (i + 1) with ⟨k, hk⟩
        exact ⟨k + 1, by simp [setRulesList, hv, he, hk]⟩

/-- When the rule loop succeeds, every nonempty rule was invoked. -/
lemma setRulesList_ok_full (e : Executor) :
    ∀ (rules : List String) (i : Nat),
      (setRulesList e rules i).2 = .ok () →
      (setRulesList e rules i).1
        = (rules.filter (fun v => !(v == ""))).map (fun v => ("auditctl", goFields v)) := by
  intro rules
  induction rules with
  | nil => intro i _; rfl
  | cons v rest ih =>
    intro i hok
    by_cases hv : v = ""
    · rw [show setRulesList e (v :: rest) i = setRulesList e rest (i + 1) by
        simp [setRulesList, hv]] at hok ⊢
      simp [hv, ih (i + 1) hok]
    · cases he : e "auditctl" (goFields v) with
      | false =>
        exfalso
        rw [show setRulesList e (v :: rest) i
            = ([("auditctl", goFields v)],
                .error ("Failed to add rule #" ++ toString (i + 1))) by
          simp [setRulesList, hv, he]] at hok
        cases hok
      | true =>
        rw [show setRulesList e (v :: rest) i
            = (("auditctl", goFields v) :: (setRulesList e rest (i + 1)).1,
                (setRulesList e rest (i + 1)).2) by
          simp [setRulesList, hv, he]] at hok ⊢
        simp [hv, ih (i + 1) hok]

/-- A failing invocation inside the rule loop is the last invocation of
the trace and forces an error result. -/
lemma setRulesList_fail_last (e : Executor) :
    ∀ (rules : List String) (i : Nat) (c : String × List String),
      c ∈ (setRulesList e rules i).1 → e c.1 c.2 = false →
      (setRulesList e rules i).2 ≠ .ok () ∧ (setRulesList e rules i).1.getLast? = some c := by
  intro rules
  induction rules with
  | nil =>
    intro i c hmem _
    cases hmem
  | cons v rest ih =>
    intro i c hmem hfail
    by_cases hv : v = ""
    · rw [show setRulesList e (v :: rest) i = setRulesList e rest (i + 1) by
        simp [setRulesList, hv]] at hmem ⊢
      exact ih (i + 1) c hmem hfail
    · cases he : e "auditctl" (goFields v) with
      | false =>
        rw [show setRulesList e (v :: rest) i
            = ([("auditctl", goFields v)],
                .error ("Failed to add rule #" ++ toString (i + 1))) by
          simp [setRulesList, hv, he]] at hmem ⊢
        have heq : c = ("auditctl", goFields v) := List.mem_singleton.mp hmem
        exact ⟨by simp, by rw [heq]; rfl⟩
      | true =>
        rw [show setRulesList e (v :: rest) i
            = (("auditctl", goFields v) :: (setRulesList e rest (i + 1)).1,
                (setRulesList e rest (i + 1)).2) by
          simp [setRulesList, hv, he]] at hmem ⊢
        rcases List.mem_cons.mp hmem with heq | hmem2
        · exfalso
          rw [heq] at hfail
          rw [he] at hfail
          cases hfail
        · rcases ih (i + 1) c hmem2 hfail with ⟨hne, hlast⟩
          exact ⟨hne, getLast?_cons_of_mem _ hmem2 hlast⟩

/-- C3: setRules invokes auditctl -D first; every further invocation runs
auditctl on the whitespace split fields of the nonempty configured rules
in configuration order, as a prefix of that list; on success all of them
were invoked; any failing invocation is the last one performed and makes
setRules return an error, so no later rule is installed. -/
theorem setRules_invocation_order (settings : Settings) (e : Executor) :
    (setRules settings e).1.head? = some ("auditctl", ["-D"])
      ∧ (∃ k, (setRules settings e).1.tail
          = (((viperGetStringSlice settings "rules").filter (fun v => !(v == ""))).take k).map
              (fun v => ("auditctl", goFields v)))
      ∧ ((setRules settings e).2 = .ok () →
          (setRules settings e).1.tail
            = ((viperGetStringSlice settings "rules").filter (fun v => !(v == ""))).map
                (fun v => ("auditctl", goFields v)))
      ∧ ∀ c ∈ (setRules settings e).1, e c.1 c.2 = false →
          (setRules settings e).2 ≠ Except.ok () ∧ (setRules settings e).1.getLast? = some c := by
  cases hfl : e "auditctl" ["-D"] with
  | false =>
    rw [show setRules settings e
        = ([("auditctl", ["-D"])], .error "Failed to flush existing audit rules.") by
      simp [setRules, hfl]]
    refine ⟨rfl, ⟨0, by simp⟩, ?_, ?_⟩
    · intro h
      cases h
    · intro c hmem hfail
      have heq : c = ("auditctl", ["-D"]) := List.mem_singleton.mp hmem
      exact ⟨by simp, by rw [heq]; rfl⟩
  | true =>
    by_cases hlen : (viperGetStringSlice settings "rules").length = 0
    · rw [show setRules settings e
          = ([("auditctl", ["-D"])], .error "No audit rules found.") by
        simp [setRules, hfl, hlen]]
      refine ⟨rfl, ⟨0, by simp⟩, ?_, ?_⟩
      · intro h
        cases h
      · intro c hmem hfail
        exfalso
        have heq : c = ("auditctl", ["-D"]) := List.mem_singleton.mp hmem
        rw [heq] at hfail
        rw [hfl] at hfail
        cases hfail
    · rw [show setRules settings e
          = (("auditctl", ["-D"]) :: (setRulesList e (viperGetStringSlice settings "rules") 0).1,
              (setRulesList e (viperGetStringSlice settings "rules") 0).2) by
        simp [setRules, hfl, hlen]]
      refine ⟨rfl, ?_, ?_, ?_⟩
      · exact setRulesList_trace_prefix e (viperGetStringSlice settings "rules") 0
      · exact setRulesList_ok_full e (viperGetStringSlice settings "rules") 0
      · intro c hmem hfail
        rcases List.mem_cons.mp hmem with heq | hmem2
        · exfalso
          rw [heq] at hfail
          rw [hfl] at hfail
          cases hfail
        · rcases setRulesList_fail_last e (viperGetStringSlice settings "rules") 0 c hmem2 hfail
            with ⟨hne, hlast⟩
          exact ⟨hne, getLast?_cons_of_mem _ hmem2 hlast⟩

/-- Witness for C3 at a concrete rules configuration. -/
theorem setRules_invocation_order_witness :
    (setRules demoRuleSettings execAllOk).1.head? = some ("auditctl", ["-D"]) :=
  (setRules_invocation_order demoRuleSettings execAllOk).1

/-- C5 (amended): a filter entry carrying a compilable regex, a message
type given as int or as a decimal string that parses as an unsigned 64 bit
integer, and a syscall given as string or int, is accepted, with
MessageType the numeric value truncated to unsigned 16 bits by the Go
uint16 conversion and Syscall the string, an int syscall rendered in
decimal. -/
theorem createFilters_normalizes_forms (rc : String → Option String) (re cre : String)
    (hrc : rc re = some cre) :
    (∀ (n : Int) (s : String),
        createFilters (Value.list [filterEntry (Value.int n) (Value.str s) re]) rc
          = .ok [⟨(n % 65536).toNat, s, some cre⟩])
      ∧ (∀ (n sn : Int),
        createFilters (Value.list [filterEntry (Value.int n) (Value.int sn) re]) rc
          = .ok [⟨(n % 65536).toNat, toString sn, some cre⟩])
      ∧ (∀ (ms : String) (u : Nat) (s : String), goParseUint ms 64 = some u →
        createFilters (Value.list [filterEntry (Value.str ms) (Value.str s) re]) rc
          = .ok [⟨u % 65536, s, some cre⟩])
      ∧ (∀ (ms : String) (u : Nat) (sn : Int), goParseUint ms 64 = some u →
        createFilters (Value.list [filterEntry (Value.str ms) (Value.int sn) re]) rc
          = .ok [⟨u % 65536, toString sn, some cre⟩]) := by
  refine ⟨?_, ?_, ?_, ?_⟩ <;> intros <;>
    simp_all [createFilters, createFiltersList, processFilterEntry, setFilterFields,
      setFilterField, filterFieldAction, filterEntry]

/-- Witness for the amended C5 at a concrete in range entry. -/
theorem createFilters_normalizes_forms_witness :
    createFilters (Value.list [filterEntry (Value.int 1300) (Value.str "2") "re0"]) rcAccept
      = .ok [⟨((1300 : Int) % 65536).toNat, "2", some "re0"⟩] :=
  (createFilters_normalizes_forms rcAccept "re0" "re0" rfl).1 1300 "2"

/-- Counterexample for C5 as stated: the int message type 70000 is
accepted but MessageType becomes 4464, not the u16 with the numeric value
70000, because the uint16 conversion truncates modulo 65536. -/
theorem createFilters_messageType_truncates :
    createFilters (Value.list [filterEntry (Value.int 70000) (Value.str "2") "x"]) rcAccept
        = .ok [⟨4464, "2", some "x"⟩]
      ∧ ¬ ((4464 : Nat) = 70000) :=
  ⟨rfl, by decide⟩

/-- Shape of the syslog constructor result: the logger state is passed
through and the outcome is an error or a writer. -/
lemma createSyslogOutput_shape (s : Settings) (env : Env) (ls : LoggerState) :
    (∃ m, createSyslogOutput s env ls = (ls, .error m))
      ∨ ∃ w, createSyslogOutput s env ls = (ls, .ok w) := by
  rcases hE : (createSyslogOutput s env ls).2 with m | w
  · exact Or.inl ⟨m, Prod.ext rfl hE⟩
  · exact Or.inr ⟨w, Prod.ext rfl hE⟩

/-- Shape of the file constructor result: the logger state is passed
through and the outcome is an error or a writer. -/
lemma createFileOutput_shape (s : Settings) (env : Env) (ls : LoggerState) :
    (∃ m, createFileOutput s env ls = (ls, .error m))
      ∨ ∃ w, createFileOutput s env ls = (ls, .ok w) := by
  rcases hE : (createFileOutput s env ls).2 with m | w
  · exact Or.inl ⟨m, Prod.ext rfl hE⟩
  · exact Or.inr ⟨w, Prod.ext rfl hE⟩

/-- Shape of the stdout constructor result: an error leaves the logger
state alone, success moves the info logger to stderr. -/
lemma createStdOutOutput_shape (s : Settings) (env : Env) (ls : LoggerState) :
    (∃ m, createStdOutOutput s env ls = (ls, .error m))
      ∨ ∃ w, createStdOutOutput s env ls = ({ ls with lOut := Dest.stderrDest }, .ok w) := by
  unfold createStdOutOutput
  by_cases h1 : viperGetInt s "output.stdout.attempts" < 1
  · rw [if_pos h1]
    exact Or.inl ⟨_, rfl⟩
  · rw [if_neg h1]
    exact Or.inr ⟨_, rfl⟩

/-- C1: createOutput returns a writer exactly when exactly one of the
three outputs is enabled and the constructor of that output succeeds;
with zero or with two or more outputs enabled it returns an error. -/
theorem createOutput_exactly_one (s : Settings) (env : Env) (ls : LoggerState) :
    (∃ w, (createOutput s env ls).2 = .ok w) ↔
      (outputsEnabledCount s = 1
        ∧ ((viperGetBool s "output.syslog.enabled" = true
              ∧ ∃ w, (createSyslogOutput s env ls).2 = .ok w)
          ∨ (viperGetBool s "output.file.enabled" = true
              ∧ ∃ w, (createFileOutput s env ls).2 = .ok w)
          ∨ (viperGetBool s "output.stdout.enabled" = true
              ∧ ∃ w, (createStdOutOutput s env ls).2 = .ok w))) := by
  rcases createSyslogOutput_shape s env ls with ⟨m1, e1⟩ | ⟨w1, e1⟩ <;>
    rcases createFileOutput_shape s env ls with ⟨m2, e2⟩ | ⟨w2, e2⟩ <;>
      rcases createStdOutOutput_shape s env ls with ⟨m3, e3⟩ | ⟨w3, e3⟩ <;>
        cases h1 : viperGetBool s "output.syslog.enabled" <;>
          cases h2 : viperGetBool s "output.file.enabled" <;>
            cases h3 : viperGetBool s "output.stdout.enabled" <;>
              simp [createOutput, outputStep, outputsEnabledCount, h1, h2, h3, e1, e2, e3]

/-- Witness for C1: with only stdout enabled and three attempts a writer
is produced. -/
theorem createOutput_exactly_one_witness :
    ∃ w, (createOutput stdoutOnlySettings demoEnv initLoggerState).2 = .ok w :=
  (createOutput_exactly_one stdoutOnlySettings demoEnv initLoggerState).mpr
    ⟨rfl, Or.inr (Or.inr ⟨rfl, ⟨⟨Sink.stdoutSink, 3⟩, rfl⟩⟩)⟩

/-- C7 (amended): only the missing config flag path exits with code 1;
a config load failure, an output creation failure or a rule installation
failure makes main panic, and an unrecovered Go panic terminates the
process with exit code 2, not 1; a runtime fatal error (the spec modelled
writer exhausting its retry budget) also terminates with exit code 2. -/
theorem startup_exit_codes_amended (configFile : String) (load : Option Settings)
    (env : Env) (e : Executor) (rc : String → Option String) :
    (configFile = "" →
        mainStartup configFile load env e rc = .usageExit1
          ∧ exitCodeOf (mainStartup configFile load env e rc) = some 1)
      ∧ (configFile ≠ "" → load = none →
          ∃ m, mainStartup configFile load env e rc = .panicked m
            ∧ exitCodeOf (mainStartup configFile load env e rc) = some 2)
      ∧ (∀ settings, configFile ≠ "" → load = some settings →
          (∀ w, (createOutput settings env initLoggerState).2 ≠ .ok w) →
          ∃ m, mainStartup configFile load env e rc = .panicked m
            ∧ exitCodeOf (mainStartup configFile load env e rc) = some 2)
      ∧ (∀ settings w, configFile ≠ "" → load = some settings →
          (createOutput settings env initLoggerState).2 = .ok w →
          (setRules settings e).2 ≠ .ok () →
          ∃ m, mainStartup configFile load env e rc = .panicked m
            ∧ exitCodeOf (mainStartup configFile load env e rc) = some 2)
      ∧ (∀ (sinkOk : Nat → Bool) (attempts start : Nat),
          (∀ i, sinkOk i = false) →
          ∃ m, auditWriterWrite sinkOk attempts start = .error m
            ∧ runtimeFatalExitCode (auditWriterWrite sinkOk attempts start) = some 2) := by
  refine ⟨?_, ?_, ?_, ?_, ?_⟩
  · intro h
    rw [show mainStartup configFile load env e rc = .usageExit1 by
      unfold mainStartup
      rw [if_pos h]]
    exact ⟨rfl, rfl⟩
  · intro h hl
    subst hl
    rw [show mainStartup configFile none env e rc = .panicked "config load error" by
      unfold mainStartup
      rw [if_neg h]]
    exact ⟨_, rfl, rfl⟩
  · intro settings h hl hout
    subst hl
    unfold mainStartup
    rw [if_neg h]
    dsimp only
    rcases hco : createOutput settings env initLoggerState with ⟨ls1, r⟩
    cases r with
    | error m => exact ⟨m, rfl, rfl⟩
    | ok w =>
      exfalso
      exact hout w (by rw [hco])
  · intro settings w h hl hok hsr
    subst hl
    unfold mainStartup
    rw [if_neg h]
    dsimp only
    rcases hco : createOutput settings env initLoggerState with ⟨ls1, r⟩
    cases r with
    | error m => exact ⟨m, rfl, rfl⟩
    | ok w2 =>
      cases hs : (setRules settings e).2 with
      | error m3 => exact ⟨m3, rfl, rfl⟩
      | ok u =>
        exfalso
        cases u
        exact hsr hs
  · intro sinkOk attempts
    induction attempts with
    | zero => exact fun start hfail => ⟨_, rfl, rfl⟩
    | succ n ihn =>
      intro start hfail
      rw [show auditWriterWrite sinkOk (n + 1) start = auditWriterWrite sinkOk n (start + 1) by
        simp [auditWriterWrite, hfail start]]
      exact ihn (start + 1) hfail

/-- Counterexample for C7 as stated: a startup failure (no output enabled
in the configuration) terminates through a panic with exit code 2, not
with exit code 1 as the claim requires. -/
theorem startup_failure_exits_two :
    mainStartup "go-audit.yaml" (some emptySettings) demoEnv execAllOk rcAccept
        = .panicked "No outputs were configured"
      ∧ exitCodeOf (mainStartup "go-audit.yaml" (some emptySettings) demoEnv execAllOk rcAccept)
          = some 2
      ∧ exitCodeOf (mainStartup "go-audit.yaml" (some emptySettings) demoEnv execAllOk rcAccept)
          ≠ some 1 := by
  refine ⟨by decide, by decide, by decide⟩

/-- Witness for the amended C7: the missing flag path exits with code 1,
and a sink that fails every attempt makes the writer surface a
DeliveryError with runtime exit code 2. -/
theorem startup_exit_codes_amended_witness :
    mainStartup "" none demoEnv execAllOk rcAccept = .usageExit1
      ∧ ∃ m, auditWriterWrite (fun _ => false) 3 0 = .error m
          ∧ runtimeFatalExitCode (auditWriterWrite (fun _ => false) 3 0) = some 2 :=
  ⟨((startup_exit_codes_amended "" none demoEnv execAllOk rcAccept).1 rfl).1,
    (startup_exit_codes_amended "" none demoEnv execAllOk rcAccept).2.2.2.2
      (fun _ => false) 3 0 (fun _ => rfl)⟩
